import Mathlib

/-
Shallow embedding of the scoring, color-classification and emoji-badge
engine of the skihuettn-guide app, together with proofs of its specified
properties.

JavaScript numbers are modelled as rationals (ℚ): every value the engine
manipulates (half-step slider values, the 4.5 thresholds, 0.5 percentages)
is an exact decimal, so rational arithmetic coincides with the source
arithmetic on the whole documented domain.
-/

/-- A partial rating during input (Partial Rating in the source types):
every scorable field may be absent, absent meaning undefined. -/
structure PartialRating where
  self_service : Option ℚ
  service : Option ℚ
  ski_haserl : Option ℚ
  food : Option ℚ
  sun_terrace : Option ℚ
  interior : Option ℚ
  apres_ski : Option ℚ
  eggnog : Option Bool

/-- calculateTotalScore from the rating-utils module: the sum of the seven
numeric fields, an absent field read as 0 via the nullish-coalescing
operator, plus 5 when eggnog is truthy. -/
def calculateTotalScore (rating : PartialRating) : ℚ :=
  (rating.self_service.getD 0) +
  (rating.service.getD 0) +
  (rating.ski_haserl.getD 0) +
  (rating.food.getD 0) +
  (rating.sun_terrace.getD 0) +
  (rating.interior.getD 0) +
  (rating.apres_ski.getD 0) +
  (if rating.eggnog.getD false then 5 else 0)

/-- The total-score formula exactly as the specification words it: the sum
of the eight contributions, where every absent numeric field contributes 0
and an absent eggnog contributes 0. -/
def spec_totalScore (rating : PartialRating) : ℚ :=
  ([rating.self_service, rating.service, rating.ski_haserl, rating.food,
    rating.sun_terrace, rating.interior, rating.apres_ski].map
      (fun o => o.getD 0)).sum +
  (if rating.eggnog = some true then 5 else 0)

/-- Truncation of a rational toward zero, as the JavaScript remainder
operator truncates the quotient. -/
def ratTrunc (q : ℚ) : ℤ := q.num.tdiv q.den

/-- The JavaScript remainder operator on exact decimals:
a % b = a - b * trunc(a / b), the sign following the dividend. -/
def jsRem (a b : ℚ) : ℚ := a - b * (ratTrunc (a / b))

/-- isValidSliderValue from the rating-utils module: reject values outside
[0, 5], then check that value * 10 leaves remainder 0 modulo 5. -/
def isValidSliderValue (value : ℚ) : Bool :=
  if value < 0 ∨ value > 5 then false
  else decide (jsRem (value * 10) 5 = 0)

/-- getScoreColor from the color module: the unrated gray guard, then the
ordered score bands, each returning the fill hex color. -/
def getScoreColor (score : ℚ) (ratingCount : Option ℚ) : String :=
  if ratingCount ≠ none ∧ ratingCount = some 0 then "#9CA3AF"
  else if score < 0 then "#EF4444"
  else if score ≥ 0 ∧ score < 10 then "#F59E0B"
  else if score ≥ 10 ∧ score < 20 then "#84CC16"
  else "#10B981"

/-- getScoreBackgroundColor from the color module: same guards, lighter
background variants. -/
def getScoreBackgroundColor (score : ℚ) (ratingCount : Option ℚ) : String :=
  if ratingCount ≠ none ∧ ratingCount = some 0 then "#F3F4F6"
  else if score < 0 then "#FEE2E2"
  else if score ≥ 0 ∧ score < 10 then "#FEF3C7"
  else if score ≥ 10 ∧ score < 20 then "#ECFCCB"
  else "#D1FAE5"

/-- getScoreTextColor from the color module: same guards, high-contrast
text variants. -/
def getScoreTextColor (score : ℚ) (ratingCount : Option ℚ) : String :=
  if ratingCount ≠ none ∧ ratingCount = some 0 then "#4B5563"
  else if score < 0 then "#991B1B"
  else if score ≥ 0 ∧ score < 10 then "#92400E"
  else if score ≥ 10 ∧ score < 20 then "#3F6212"
  else "#065F46"

/-- getScoreBorderColor from the color module: same guards, border
variants. -/
def getScoreBorderColor (score : ℚ) (ratingCount : Option ℚ) : String :=
  if ratingCount ≠ none ∧ ratingCount = some 0 then "#D1D5DB"
  else if score < 0 then "#FCA5A5"
  else if score ≥ 0 ∧ score < 10 then "#FCD34D"
  else if score ≥ 10 ∧ score < 20 then "#BEF264"
  else "#6EE7B7"

/-- The five score bands of the specification: the unrated sentinel plus
the four ordered severity levels. -/
inductive ScoreBand where
  | unrated
  | negative
  | low
  | good
  | excellent
deriving DecidableEq

/-- All five bands, for totality and distinctness statements. -/
def allBands : List ScoreBand :=
  [ScoreBand.unrated, ScoreBand.negative, ScoreBand.low, ScoreBand.good,
   ScoreBand.excellent]

/-- The band classifier exactly as the specification words it: the unrated
guard first, then half-open boundaries evaluated in order with first match
winning. -/
def spec_classify (score : ℚ) (ratingCount : Option ℚ) : ScoreBand :=
  if ratingCount = some 0 then ScoreBand.unrated
  else if score < 0 then ScoreBand.negative
  else if 0 ≤ score ∧ score < 10 then ScoreBand.low
  else if 10 ≤ score ∧ score < 20 then ScoreBand.good
  else ScoreBand.excellent

/-- Band-to-fill-color lookup table (the constants of getScoreColor). -/
def fillColorTable : ScoreBand → String
  | ScoreBand.unrated => "#9CA3AF"
  | ScoreBand.negative => "#EF4444"
  | ScoreBand.low => "#F59E0B"
  | ScoreBand.good => "#84CC16"
  | ScoreBand.excellent => "#10B981"

/-- Band-to-background-color lookup table (the constants of
getScoreBackgroundColor). -/
def backgroundColorTable : ScoreBand → String
  | ScoreBand.unrated => "#F3F4F6"
  | ScoreBand.negative => "#FEE2E2"
  | ScoreBand.low => "#FEF3C7"
  | ScoreBand.good => "#ECFCCB"
  | ScoreBand.excellent => "#D1FAE5"

/-- Band-to-text-color lookup table (the constants of getScoreTextColor). -/
def textColorTable : ScoreBand → String
  | ScoreBand.unrated => "#4B5563"
  | ScoreBand.negative => "#991B1B"
  | ScoreBand.low => "#92400E"
  | ScoreBand.good => "#3F6212"
  | ScoreBand.excellent => "#065F46"

/-- Band-to-border-color lookup table (the constants of
getScoreBorderColor). -/
def borderColorTable : ScoreBand → String
  | ScoreBand.unrated => "#D1D5DB"
  | ScoreBand.negative => "#FCA5A5"
  | ScoreBand.low => "#FCD34D"
  | ScoreBand.good => "#BEF264"
  | ScoreBand.excellent => "#6EE7B7"

/-- The six averaged stat categories an emoji configuration can point at
(the keys of RestaurantStats the emoji module uses). -/
inductive StatCategory where
  | avg_apres_ski
  | avg_food
  | avg_service
  | avg_sun_terrace
  | avg_ski_haserl
  | avg_interior
deriving DecidableEq, Inhabited

/-- Aggregated restaurant statistics (RestaurantStats in the source types),
restricted to the fields the engine reads. -/
structure RestaurantStats where
  rating_count : ℕ
  avg_service : ℚ
  avg_ski_haserl : ℚ
  avg_food : ℚ
  avg_sun_terrace : ℚ
  avg_interior : ℚ
  avg_apres_ski : ℚ
  eggnog_percentage : ℚ

/-- Dynamic field read stats[config.category] of the emoji module. -/
def statValue (stats : RestaurantStats) : StatCategory → ℚ
  | StatCategory.avg_apres_ski => stats.avg_apres_ski
  | StatCategory.avg_food => stats.avg_food
  | StatCategory.avg_service => stats.avg_service
  | StatCategory.avg_sun_terrace => stats.avg_sun_terrace
  | StatCategory.avg_ski_haserl => stats.avg_ski_haserl
  | StatCategory.avg_interior => stats.avg_interior

/-- One entry of the emoji configuration table (EmojiConfig in the
source). -/
structure EmojiConfig where
  category : StatCategory
  emoji : String
  threshold : ℚ
  priority : ℕ
deriving DecidableEq, Inhabited

/-- The master EMOJI_CONFIGS table, in its source order: strict priority
1..6, every threshold 4.5. -/
def EMOJI_CONFIGS : List EmojiConfig :=
  [⟨StatCategory.avg_apres_ski, "🍾", 4.5, 1⟩,
   ⟨StatCategory.avg_food, "🍽️", 4.5, 2⟩,
   ⟨StatCategory.avg_service, "🧑‍🍳", 4.5, 3⟩,
   ⟨StatCategory.avg_sun_terrace, "☀️", 4.5, 4⟩,
   ⟨StatCategory.avg_ski_haserl, "💃", 4.5, 5⟩,
   ⟨StatCategory.avg_interior, "🛋️", 4.5, 6⟩]

/-- The eggnog bonus emoji pushed by getEmojisForRestaurant. -/
def eggnogEmoji : String := "🥚🥛"

/-- Stable insertion into a list sorted by ascending priority. Together
with sortByPriority this models the stable JavaScript array sort with the
comparator a.priority - b.priority. -/
def insertByPriority (c : EmojiConfig) : List EmojiConfig → List EmojiConfig
  | [] => [c]
  | d :: ds =>
      if c.priority ≤ d.priority then c :: d :: ds
      else d :: insertByPriority c ds

/-- Stable insertion sort by ascending priority, modelling the JavaScript
sort call of the emoji module. -/
def sortByPriority : List EmojiConfig → List EmojiConfig
  | [] => []
  | c :: cs => insertByPriority c (sortByPriority cs)

/-- The qualifying-emoji pipeline of getEmojisForRestaurant: filter the
configurations whose stat value strictly exceeds the threshold, sort by
ascending priority, keep at most 3, and project the emoji symbols. -/
def regularEmojis (stats : RestaurantStats) : List String :=
  ((sortByPriority (EMOJI_CONFIGS.filter
      (fun config => decide (statValue stats config.category > config.threshold)))).take 3).map
    (fun config => config.emoji)

/-- getEmojisForRestaurant from the emoji module: the regular pipeline,
then the eggnog emoji appended when at least half the ratings have
eggnog. -/
def getEmojisForRestaurant (stats : RestaurantStats) : List String :=
  let qualifyingEmojis := regularEmojis stats
  if stats.eggnog_percentage ≥ (0.5 : ℚ) then qualifyingEmojis ++ [eggnogEmoji]
  else qualifyingEmojis

/-- The regular badge list exactly as the specification words it: the
symbols of the table entries whose category average strictly exceeds their
threshold, read off in table order (ascending priority), truncated to at
most 3. -/
def spec_regularBadges (stats : RestaurantStats) : List String :=
  ((EMOJI_CONFIGS.filter
      (fun config => decide (statValue stats config.category > config.threshold))).map
    (fun config => config.emoji)).take 3

/-- Reference-level model of the emoji module for the aliasing behavior of
getAllEmojiConfigs: the store maps a reference (an index) to the current
field contents of one configuration object, and master is the
EMOJI_CONFIGS array, an array of references into the store. -/
structure EmojiModuleState where
  store : List EmojiConfig
  master : List ℕ

/-- The module state right after loading: six objects on the heap, the
master array referencing them in order. -/
def initEmojiState : EmojiModuleState :=
  ⟨EMOJI_CONFIGS, [0, 1, 2, 3, 4, 5]⟩

/-- getAllEmojiConfigs at the reference level: the array spread builds a
fresh array holding the same references, a shallow copy. -/
def getAllEmojiConfigsRefs (st : EmojiModuleState) : List ℕ := st.master

/-- The configuration objects a reader of EMOJI_CONFIGS currently sees:
the master references resolved through the store. -/
def configsOf (st : EmojiModuleState) : List EmojiConfig :=
  st.master.map (fun r => st.store.getD r default)

/-- A caller-side field write through a reference: sets the threshold
field of the referenced configuration object on the heap. -/
def writeThreshold (st : EmojiModuleState) (r : ℕ) (t : ℚ) : EmojiModuleState :=
  ⟨st.store.set r ⟨(st.store.getD r default).category,
                   (st.store.getD r default).emoji, t,
                   (st.store.getD r default).priority⟩,
   st.master⟩

/-- getEmojisForRestaurant reading the configuration table through the
reference-level module state. -/
def getEmojisForRestaurantSt (st : EmojiModuleState) (stats : RestaurantStats) : List String :=
  let qualifyingEmojis :=
    ((sortByPriority ((configsOf st).filter
        (fun config => decide (statValue stats config.category > config.threshold)))).take 3).map
      (fun config => config.emoji)
  if stats.eggnog_percentage ≥ (0.5 : ℚ) then qualifyingEmojis ++ [eggnogEmoji]
  else qualifyingEmojis

/-- Concrete aggregate used to exhibit the shared-entry aliasing of the
shallow copy: every category average 5, no eggnog. -/
def aliasingStats : RestaurantStats := ⟨1, 5, 5, 5, 5, 5, 5, 0⟩

/-- Concrete aggregate with every category average exactly at the 4.5
threshold. -/
def thresholdStats : RestaurantStats := ⟨2, 4.5, 4.5, 4.5, 4.5, 4.5, 4.5, 0⟩

/-- Concrete aggregate with every category average 5 and the eggnog
percentage exactly at the 0.5 boundary. -/
def bonusBoundaryStats : RestaurantStats := ⟨4, 5, 5, 5, 5, 5, 5, 0.5⟩

/-
Helper lemmas (shared; not claim theorems).
-/

/-- Truncation toward zero is the identity on integers. -/
theorem ratTrunc_intCast (k : ℤ) : ratTrunc (k : ℚ) = k := by
  simp [ratTrunc, Rat.num_intCast, Rat.den_intCast, Int.tdiv_one]

/-- The JavaScript remainder by 5 vanishes exactly on the multiples
of 5. -/
theorem jsRem_five_eq_zero_iff (a : ℚ) :
    jsRem a 5 = 0 ↔ ∃ k : ℤ, a = 5 * k := by
  constructor
  · intro h
    refine ⟨ratTrunc (a / 5), ?_⟩
    have h2 : a - 5 * ((ratTrunc (a / 5) : ℤ) : ℚ) = 0 := h
    linarith
  · rintro ⟨k, rfl⟩
    have h5 : (5 : ℚ) * k / 5 = (k : ℚ) := by
      field_simp
    simp [jsRem, h5, ratTrunc_intCast]


/-- C1: for every partial rating input, calculateTotalScore returns exactly
the sum self_service + service + ski_haserl + food + sun_terrace + interior
+ apres_ski + (5 if eggnog is true, else 0), every absent numeric field
contributing 0 and an absent eggnog contributing 0. -/
theorem calculateTotalScore_eq_spec (rating : PartialRating) :
    calculateTotalScore rating = spec_totalScore rating := by
  rcases rating with ⟨ss, sv, sh, fd, st, it, ap, egg⟩
  rcases egg with _ | b
  · simp [calculateTotalScore, spec_totalScore]
    ring
  · cases b <;> simp [calculateTotalScore, spec_totalScore] <;> ring

/-- C2: on the documented input domain (self-service level one of
-20, -10, 0; every present slider within 0..5) the total score lies in
[-20, 35]; the minimum -20 is attained at self-service -20 with all
sliders absent and eggnog false, and the maximum 35 at self-service 0,
all six sliders 5 and eggnog true. -/
theorem calculateTotalScore_range (r : PartialRating)
    (hss : r.self_service.getD 0 = -20 ∨ r.self_service.getD 0 = -10 ∨
      r.self_service.getD 0 = 0)
    (hsv : 0 ≤ r.service.getD 0 ∧ r.service.getD 0 ≤ 5)
    (hsh : 0 ≤ r.ski_haserl.getD 0 ∧ r.ski_haserl.getD 0 ≤ 5)
    (hfd : 0 ≤ r.food.getD 0 ∧ r.food.getD 0 ≤ 5)
    (hst : 0 ≤ r.sun_terrace.getD 0 ∧ r.sun_terrace.getD 0 ≤ 5)
    (hit : 0 ≤ r.interior.getD 0 ∧ r.interior.getD 0 ≤ 5)
    (hap : 0 ≤ r.apres_ski.getD 0 ∧ r.apres_ski.getD 0 ≤ 5) :
    (-20 ≤ calculateTotalScore r ∧ calculateTotalScore r ≤ 35) ∧
    calculateTotalScore
      ⟨some (-20), none, none, none, none, none, none, some false⟩ = -20 ∧
    calculateTotalScore
      ⟨some 0, some 5, some 5, some 5, some 5, some 5, some 5, some true⟩ = 35 := by
  refine ⟨?_, by norm_num [calculateTotalScore], by norm_num [calculateTotalScore]⟩
  have hb : (0 : ℚ) ≤ (if r.eggnog.getD false then (5 : ℚ) else 0) ∧
      (if r.eggnog.getD false then (5 : ℚ) else 0) ≤ 5 := by
    split <;> norm_num
  have hss2 : (-20 : ℚ) ≤ r.self_service.getD 0 ∧ r.self_service.getD 0 ≤ 0 := by
    rcases hss with h | h | h <;> rw [h] <;> norm_num
  unfold calculateTotalScore
  constructor <;> linarith [hsv.1, hsv.2, hsh.1, hsh.2, hfd.1, hfd.2, hst.1,
    hst.2, hit.1, hit.2, hap.1, hap.2, hb.1, hb.2, hss2.1, hss2.2]

/-- C2 witness: the range theorem applied at the concrete all-maximal
rating. -/
theorem calculateTotalScore_range_witness :
    (-20 ≤ calculateTotalScore
        ⟨some 0, some 5, some 5, some 5, some 5, some 5, some 5, some true⟩ ∧
      calculateTotalScore
        ⟨some 0, some 5, some 5, some 5, some 5, some 5, some 5, some true⟩ ≤ 35) ∧
    calculateTotalScore
      ⟨some (-20), none, none, none, none, none, none, some false⟩ = -20 ∧
    calculateTotalScore
      ⟨some 0, some 5, some 5, some 5, some 5, some 5, some 5, some true⟩ = 35 :=
  calculateTotalScore_range
    ⟨some 0, some 5, some 5, some 5, some 5, some 5, some 5, some true⟩
    (Or.inr (Or.inr rfl)) ⟨by norm_num, by norm_num⟩ ⟨by norm_num, by norm_num⟩
    ⟨by norm_num, by norm_num⟩ ⟨by norm_num, by norm_num⟩
    ⟨by norm_num, by norm_num⟩ ⟨by norm_num, by norm_num⟩

/-- C5: with a provided rating count of 0 the classifier and all four
color accessors return the unrated band value, for every score. -/
theorem unrated_guard_overrides (score : ℚ) :
    spec_classify score (some 0) = ScoreBand.unrated ∧
    getScoreColor score (some 0) = fillColorTable ScoreBand.unrated ∧
    getScoreBackgroundColor score (some 0) =
      backgroundColorTable ScoreBand.unrated ∧
    getScoreTextColor score (some 0) = textColorTable ScoreBand.unrated ∧
    getScoreBorderColor score (some 0) = borderColorTable ScoreBand.unrated := by
  refine ⟨rfl, ?_, ?_, ?_, ?_⟩ <;>
    simp [getScoreColor, getScoreBackgroundColor, getScoreTextColor,
      getScoreBorderColor, fillColorTable, backgroundColorTable,
      textColorTable, borderColorTable]

/-- C6: when the rating count is absent or nonzero, the fill color and the
band follow ordered half-open boundaries with first match winning, and the
boundary scores 0, 10 and 20 land in Low, Good and Excellent. -/
theorem band_boundaries_halfopen (score : ℚ) (rc : Option ℚ)
    (h : rc ≠ some 0) :
    getScoreColor score rc =
      (if score < 0 then "#EF4444"
       else if score < 10 then "#F59E0B"
       else if score < 20 then "#84CC16"
       else "#10B981") ∧
    spec_classify score rc =
      (if score < 0 then ScoreBand.negative
       else if score < 10 then ScoreBand.low
       else if score < 20 then ScoreBand.good
       else ScoreBand.excellent) ∧
    getScoreColor 0 rc = "#F59E0B" ∧
    getScoreColor 10 rc = "#84CC16" ∧
    getScoreColor 20 rc = "#10B981" ∧
    getScoreColor (-1/100) rc = "#EF4444" := by
  have hg : ∀ c : ℚ, ¬(rc ≠ none ∧ rc = some 0) := by
    rintro c ⟨-, h2⟩
    exact h h2
  have cascade : ∀ {α : Type} (s : ℚ) (n l g e : α),
      (if s < 0 then n else if 0 ≤ s ∧ s < 10 then l
       else if 10 ≤ s ∧ s < 20 then g else e) =
      (if s < 0 then n else if s < 10 then l
       else if s < 20 then g else e) := by
    intro α s n l g e
    rcases lt_or_le s 0 with h0 | h0
    · rw [if_pos h0, if_pos h0]
    · rw [if_neg (not_lt.mpr h0), if_neg (not_lt.mpr h0)]
      rcases lt_or_le s 10 with h1 | h1
      · rw [if_pos ⟨h0, h1⟩, if_pos h1]
      · rw [if_neg (fun hc => absurd h1 (not_le.mpr hc.2)),
          if_neg (not_lt.mpr h1)]
        rcases lt_or_le s 20 with h2 | h2
        · rw [if_pos ⟨h1, h2⟩, if_pos h2]
        · rw [if_neg (fun hc => absurd h2 (not_le.mpr hc.2)),
            if_neg (not_lt.mpr h2)]
  refine ⟨?_, ?_, ?_, ?_, ?_, ?_⟩
  · unfold getScoreColor
    rw [if_neg (hg 0)]
    simp only [ge_iff_le]
    exact cascade score "#EF4444" "#F59E0B" "#84CC16" "#10B981"
  · unfold spec_classify
    rw [if_neg h]
    exact cascade score ScoreBand.negative ScoreBand.low ScoreBand.good
      ScoreBand.excellent
  · unfold getScoreColor
    rw [if_neg (hg 0)]
    norm_num
  · unfold getScoreColor
    rw [if_neg (hg 0)]
    norm_num
  · unfold getScoreColor
    rw [if_neg (hg 0)]
    norm_num
  · unfold getScoreColor
    rw [if_neg (hg 0)]
    norm_num

/-- C6 witness: the boundary theorem applied at score 10 with the rating
count absent. -/
theorem band_boundaries_halfopen_witness :
    getScoreColor 10 none =
      (if (10 : ℚ) < 0 then "#EF4444"
       else if (10 : ℚ) < 10 then "#F59E0B"
       else if (10 : ℚ) < 20 then "#84CC16"
       else "#10B981") ∧
    spec_classify 10 none =
      (if (10 : ℚ) < 0 then ScoreBand.negative
       else if (10 : ℚ) < 10 then ScoreBand.low
       else if (10 : ℚ) < 20 then ScoreBand.good
       else ScoreBand.excellent) ∧
    getScoreColor 0 none = "#F59E0B" ∧
    getScoreColor 10 none = "#84CC16" ∧
    getScoreColor 20 none = "#10B981" ∧
    getScoreColor (-1/100) none = "#EF4444" :=
  band_boundaries_halfopen 10 none (by simp)

/-- C7: every color accessor is its band lookup table composed with the
shared classifier, the five bands are all listed, and each channel assigns
five pairwise distinct colors. -/
theorem color_accessors_agree :
    (∀ (score : ℚ) (rc : Option ℚ),
      getScoreColor score rc = fillColorTable (spec_classify score rc) ∧
      getScoreBackgroundColor score rc =
        backgroundColorTable (spec_classify score rc) ∧
      getScoreTextColor score rc = textColorTable (spec_classify score rc) ∧
      getScoreBorderColor score rc =
        borderColorTable (spec_classify score rc)) ∧
    (∀ b : ScoreBand, b ∈ allBands) ∧
    (allBands.map fillColorTable).Nodup ∧
    (allBands.map backgroundColorTable).Nodup ∧
    (allBands.map textColorTable).Nodup ∧
    (allBands.map borderColorTable).Nodup := by
  refine ⟨?_, by intro b; cases b <;> simp [allBands], by decide, by decide,
    by decide, by decide⟩
  intro score rc
  by_cases h0 : rc = some 0
  · subst h0
    refine ⟨?_, ?_, ?_, ?_⟩ <;>
      simp [getScoreColor, getScoreBackgroundColor, getScoreTextColor,
        getScoreBorderColor, spec_classify, fillColorTable,
        backgroundColorTable, textColorTable, borderColorTable]
  · have hg : ¬(rc ≠ none ∧ rc = some 0) := fun hc => h0 hc.2
    refine ⟨?_, ?_, ?_, ?_⟩
    · simp only [getScoreColor, spec_classify, if_neg hg, if_neg h0,
        ge_iff_le]
      split_ifs <;> rfl
    · simp only [getScoreBackgroundColor, spec_classify, if_neg hg,
        if_neg h0, ge_iff_le]
      split_ifs <;> rfl
    · simp only [getScoreTextColor, spec_classify, if_neg hg, if_neg h0,
        ge_iff_le]
      split_ifs <;> rfl
    · simp only [getScoreBorderColor, spec_classify, if_neg hg, if_neg h0,
        ge_iff_le]
      split_ifs <;> rfl

/-- C10: the unrated guard fires only at a rating count of exactly 0 -
with any nonzero rating count every accessor returns what the call without
a rating count returns. -/
theorem ratingCount_guard_only_zero (score c : ℚ) (h : c ≠ 0) :
    getScoreColor score (some c) = getScoreColor score none ∧
    getScoreBackgroundColor score (some c) =
      getScoreBackgroundColor score none ∧
    getScoreTextColor score (some c) = getScoreTextColor score none ∧
    getScoreBorderColor score (some c) = getScoreBorderColor score none := by
  have hgc : ¬((some c : Option ℚ) ≠ none ∧ (some c : Option ℚ) = some 0) := by
    rintro ⟨-, h2⟩
    exact h (by simpa using h2)
  have hgn : ¬((none : Option ℚ) ≠ none ∧ (none : Option ℚ) = some 0) := by
    simp
  refine ⟨?_, ?_, ?_, ?_⟩ <;>
    simp only [getScoreColor, getScoreBackgroundColor, getScoreTextColor,
      getScoreBorderColor, if_neg hgc, if_neg hgn]

/-- C10 witness: the guard theorem applied at score 15 with rating
count 3. -/
theorem ratingCount_guard_only_zero_witness :
    getScoreColor 15 (some 3) = getScoreColor 15 none ∧
    getScoreBackgroundColor 15 (some 3) = getScoreBackgroundColor 15 none ∧
    getScoreTextColor 15 (some 3) = getScoreTextColor 15 none ∧
    getScoreBorderColor 15 (some 3) = getScoreBorderColor 15 none :=
  ratingCount_guard_only_zero 15 3 (by norm_num)

/-- Stable insertion into a priority-sorted list whose head already
dominates leaves the list unchanged. -/
theorem sortByPriority_eq_self :
    ∀ l : List EmojiConfig,
      List.Pairwise (fun a b => a.priority ≤ b.priority) l →
      sortByPriority l = l
  | [], _ => rfl
  | c :: cs, h => by
    have hle := (List.pairwise_cons.mp h).1
    have hcs := (List.pairwise_cons.mp h).2
    simp only [sortByPriority]
    rw [sortByPriority_eq_self cs hcs]
    cases cs with
    | nil => rfl
    | cons d ds =>
        have hcd : c.priority ≤ d.priority := hle d (by simp)
        simp [insertByPriority, hcd]

/-- The master table is sorted by weakly ascending priority. -/
theorem emojiConfigs_sorted_le :
    List.Pairwise (fun a b => a.priority ≤ b.priority) EMOJI_CONFIGS := by
  decide

/-- The source qualifying pipeline coincides with the specification
wording: the sort is the identity because the master table is already in
ascending priority order. -/
theorem regularEmojis_eq_spec (stats : RestaurantStats) :
    regularEmojis stats = spec_regularBadges stats := by
  unfold regularEmojis spec_regularBadges
  rw [sortByPriority_eq_self _
    (List.Pairwise.sublist (List.filter_sublist _) emojiConfigs_sorted_le)]
  rw [List.map_take]

/-- C3: the regular badges are exactly the symbols of the configuration
entries whose category average strictly exceeds their threshold (4.5 for
all six, exact equality not qualifying), in ascending priority order,
truncated to at most 3. -/
theorem regular_badges_spec (stats : RestaurantStats) :
    getEmojisForRestaurant stats =
      spec_regularBadges stats ++
        (if (1/2 : ℚ) ≤ stats.eggnog_percentage then [eggnogEmoji] else []) ∧
    List.Pairwise (fun a b => a.priority < b.priority) EMOJI_CONFIGS ∧
    EMOJI_CONFIGS.map (fun c => c.threshold) =
      [4.5, 4.5, 4.5, 4.5, 4.5, 4.5] ∧
    (spec_regularBadges stats).length ≤ 3 ∧
    getEmojisForRestaurant thresholdStats = [] := by
  have h05 : ((0.5 : ℚ) ≤ stats.eggnog_percentage) ↔
      ((1/2 : ℚ) ≤ stats.eggnog_percentage) := by norm_num
  refine ⟨?_, by decide, by norm_num [EMOJI_CONFIGS], ?_, ?_⟩
  · simp only [getEmojisForRestaurant, ge_iff_le, regularEmojis_eq_spec]
    by_cases hp : (1/2 : ℚ) ≤ stats.eggnog_percentage
    · rw [if_pos (h05.mpr hp), if_pos hp]
    · rw [if_neg (fun hc => hp (h05.mp hc)), if_neg hp, List.append_nil]
  · unfold spec_regularBadges
    rw [List.length_take]
    exact min_le_left _ _
  · norm_num [getEmojisForRestaurant, regularEmojis, EMOJI_CONFIGS,
      statValue, thresholdStats, sortByPriority, List.filter, eggnogEmoji]

/-- C4: the eggnog badge is appended as the last element exactly when the
eggnog percentage reaches one half, it does not count against the 3-item
regular cap, and the full result never exceeds 4 elements; at the 0.5
boundary with all six categories qualifying the result is the three
top-priority symbols plus the bonus. -/
theorem bonus_badge_appended (stats : RestaurantStats) :
    getEmojisForRestaurant stats =
      regularEmojis stats ++
        (if (1/2 : ℚ) ≤ stats.eggnog_percentage then [eggnogEmoji] else []) ∧
    (regularEmojis stats).length ≤ 3 ∧
    (getEmojisForRestaurant stats).length ≤ 4 ∧
    getEmojisForRestaurant bonusBoundaryStats =
      ["🍾", "🍽️", "🧑‍🍳", eggnogEmoji] := by
  have h05 : ((0.5 : ℚ) ≤ stats.eggnog_percentage) ↔
      ((1/2 : ℚ) ≤ stats.eggnog_percentage) := by norm_num
  have hdec : getEmojisForRestaurant stats =
      regularEmojis stats ++
        (if (1/2 : ℚ) ≤ stats.eggnog_percentage then [eggnogEmoji] else []) := by
    simp only [getEmojisForRestaurant, ge_iff_le]
    by_cases hp : (1/2 : ℚ) ≤ stats.eggnog_percentage
    · rw [if_pos (h05.mpr hp), if_pos hp]
    · rw [if_neg (fun hc => hp (h05.mp hc)), if_neg hp, List.append_nil]
  have hlen3 : (regularEmojis stats).length ≤ 3 := by
    unfold regularEmojis
    rw [List.length_map, List.length_take]
    exact min_le_left _ _
  refine ⟨hdec, hlen3, ?_, ?_⟩
  · rw [hdec, List.length_append]
    have : (if (1/2 : ℚ) ≤ stats.eggnog_percentage
        then [eggnogEmoji] else ([] : List String)).length ≤ 1 := by
      split <;> simp
    omega
  · have hreg : regularEmojis bonusBoundaryStats = ["🍾", "🍽️", "🧑‍🍳"] := by
      rw [regularEmojis_eq_spec]
      norm_num [spec_regularBadges, EMOJI_CONFIGS, statValue,
        bonusBoundaryStats, List.filter]
    simp only [getEmojisForRestaurant, hreg]
    norm_num [bonusBoundaryStats]

/-- C8: isValidSliderValue accepts exactly the values of [0, 5] that are
exact multiples of one half; the eleven half-steps are accepted and the
listed out-of-range and off-step values are rejected. -/
theorem isValidSliderValue_spec :
    (∀ v : ℚ, isValidSliderValue v = true ↔
      0 ≤ v ∧ v ≤ 5 ∧ ∃ k : ℤ, v = (k : ℚ) / 2) ∧
    isValidSliderValue 0 = true ∧ isValidSliderValue 0.5 = true ∧
    isValidSliderValue 1 = true ∧ isValidSliderValue 1.5 = true ∧
    isValidSliderValue 2 = true ∧ isValidSliderValue 2.5 = true ∧
    isValidSliderValue 3 = true ∧ isValidSliderValue 3.5 = true ∧
    isValidSliderValue 4 = true ∧ isValidSliderValue 4.5 = true ∧
    isValidSliderValue 5 = true ∧
    isValidSliderValue (-1) = false ∧ isValidSliderValue (-0.5) = false ∧
    isValidSliderValue 5.5 = false ∧ isValidSliderValue 6 = false ∧
    isValidSliderValue 0.1 = false ∧ isValidSliderValue 0.3 = false ∧
    isValidSliderValue 0.7 = false ∧ isValidSliderValue 1.2 = false ∧
    isValidSliderValue 2.3 = false ∧ isValidSliderValue 3.7 = false ∧
    isValidSliderValue 4.9 = false := by
  have hmain : ∀ v : ℚ, isValidSliderValue v = true ↔
      0 ≤ v ∧ v ≤ 5 ∧ ∃ k : ℤ, v = (k : ℚ) / 2 := by
    intro v
    by_cases hv : v < 0 ∨ v > 5
    · simp only [isValidSliderValue, if_pos hv, Bool.false_eq_true,
        false_iff]
      rintro ⟨h1, h2, -⟩
      rcases hv with hv | hv <;> linarith
    · simp only [isValidSliderValue, if_neg hv, decide_eq_true_eq]
      push_neg at hv
      rw [jsRem_five_eq_zero_iff]
      constructor
      · rintro ⟨k, hk⟩
        exact ⟨hv.1, hv.2, k, by linarith⟩
      · rintro ⟨-, -, k, hk⟩
        exact ⟨k, by rw [hk]; ring⟩
  have hrange : ∀ v : ℚ, (v < 0 ∨ 5 < v) → isValidSliderValue v = false := by
    intro v hv
    simp [isValidSliderValue, hv]
  have hstep : ∀ (m : ℤ) (v : ℚ), v = (m : ℚ) / 10 → ¬(5 ∣ m) →
      isValidSliderValue v = false := by
    intro m v hv hm
    rw [Bool.eq_false_iff]
    intro ht
    obtain ⟨-, -, k, hk⟩ := (hmain v).mp ht
    apply hm
    refine ⟨k, ?_⟩
    have hq : (m : ℚ) = 5 * k := by
      rw [hv] at hk
      field_simp at hk
      linarith
    exact_mod_cast hq
  refine ⟨hmain,
    (hmain 0).mpr ⟨by norm_num, by norm_num, 0, by norm_num⟩,
    (hmain 0.5).mpr ⟨by norm_num, by norm_num, 1, by norm_num⟩,
    (hmain 1).mpr ⟨by norm_num, by norm_num, 2, by norm_num⟩,
    (hmain 1.5).mpr ⟨by norm_num, by norm_num, 3, by norm_num⟩,
    (hmain 2).mpr ⟨by norm_num, by norm_num, 4, by norm_num⟩,
    (hmain 2.5).mpr ⟨by norm_num, by norm_num, 5, by norm_num⟩,
    (hmain 3).mpr ⟨by norm_num, by norm_num, 6, by norm_num⟩,
    (hmain 3.5).mpr ⟨by norm_num, by norm_num, 7, by norm_num⟩,
    (hmain 4).mpr ⟨by norm_num, by norm_num, 8, by norm_num⟩,
    (hmain 4.5).mpr ⟨by norm_num, by norm_num, 9, by norm_num⟩,
    (hmain 5).mpr ⟨by norm_num, by norm_num, 10, by norm_num⟩,
    hrange (-1) (by norm_num), hrange (-0.5) (by norm_num),
    hrange 5.5 (by norm_num), hrange 6 (by norm_num),
    hstep 1 0.1 (by norm_num) (by decide),
    hstep 3 0.3 (by norm_num) (by decide),
    hstep 7 0.7 (by norm_num) (by decide),
    hstep 12 1.2 (by norm_num) (by decide),
    hstep 23 2.3 (by norm_num) (by decide),
    hstep 37 3.7 (by norm_num) (by decide),
    hstep 49 4.9 (by norm_num) (by decide)⟩

/-- C9 counterexample: writing the threshold field of the first entry of
the array returned by getAllEmojiConfigs changes the badge selection of a
subsequent getEmojisForRestaurant call, because the array spread is a
shallow copy whose entries are the master table's own objects. -/
theorem getAllEmojiConfigs_mutation_leaks :
    getEmojisForRestaurantSt initEmojiState aliasingStats =
      ["🍾", "🍽️", "🧑‍🍳"] ∧
    getEmojisForRestaurantSt
      (writeThreshold initEmojiState
        ((getAllEmojiConfigsRefs initEmojiState).getD 0 0) 100)
      aliasingStats = ["🍽️", "🧑‍🍳", "☀️"] ∧
    getEmojisForRestaurantSt
      (writeThreshold initEmojiState
        ((getAllEmojiConfigsRefs initEmojiState).getD 0 0) 100)
      aliasingStats ≠
      getEmojisForRestaurantSt initEmojiState aliasingStats := by
  have h1 : getEmojisForRestaurantSt initEmojiState aliasingStats =
      ["🍾", "🍽️", "🧑‍🍳"] := by
    norm_num [getEmojisForRestaurantSt, configsOf, initEmojiState,
      EMOJI_CONFIGS, statValue, aliasingStats, sortByPriority,
      insertByPriority, List.filter]
  have h2 : getEmojisForRestaurantSt
      (writeThreshold initEmojiState
        ((getAllEmojiConfigsRefs initEmojiState).getD 0 0) 100)
      aliasingStats = ["🍽️", "🧑‍🍳", "☀️"] := by
    norm_num [getEmojisForRestaurantSt, configsOf, writeThreshold,
      getAllEmojiConfigsRefs, initEmojiState, EMOJI_CONFIGS, statValue,
      aliasingStats, sortByPriority, insertByPriority, List.filter]
  refine ⟨h1, h2, ?_⟩
  rw [h1, h2]
  decide

/-- C9 as the shallow copy actually behaves: the returned array is fresh,
so no caller-side restructuring of it ever reaches the master reference
array and field writes leave the master reference array intact; but the
entries are shared references, so a threshold write through the returned
first reference changes the configuration table every later reader
sees. -/
theorem getAllEmojiConfigs_shallow_copy (st : EmojiModuleState) (r : ℕ)
    (t : ℚ) :
    getAllEmojiConfigsRefs st = st.master ∧
    (writeThreshold st r t).master = st.master ∧
    configsOf initEmojiState = EMOJI_CONFIGS ∧
    configsOf (writeThreshold initEmojiState
      ((getAllEmojiConfigsRefs initEmojiState).getD 0 0) 100) ≠
      configsOf initEmojiState := by
  refine ⟨rfl, rfl, rfl, ?_⟩
  intro h
  have h0 := congrArg (fun l => (l.getD 0 default).threshold) h
  norm_num [configsOf, writeThreshold, getAllEmojiConfigsRefs,
    initEmojiState, EMOJI_CONFIGS] at h0
